import Mathlib

/-!
Shallow embedding of the regional ocean-grid extraction program
(`grid_selector`, `create_dataset`, `main` of `source_file.py`).

A 2-D field is a list of rows.  The parent coordinate file is an
association list from variable names to 2-D fields.  The xarray
selection `pcf[var].sel(y=slice(a, b), x=slice(c, d))` is embedded as
inclusive label-based slicing where the labels along each axis are the
0-based integer positions; `np.flip` with no axis argument reverses the
array along every axis, i.e. both row order and column order.
-/

namespace GridCut

/-- A 2-D array: a list of rows. -/
abbrev Grid2D (α : Type) := List (List α)

/-- A labeled collection of 2-D fields keyed by variable name
(parent coordinate file or assembled regional dataset). -/
abbrev Dataset (α : Type) := List (String × Grid2D α)

/-- `PACIFIC_Y_INDICES = (7550, -2)`. -/
def PACIFIC_Y_INDICES : Int × Int := (7550, -2)

/-- `ATLANTIC_Y_INDICES = (7350, -1)`. -/
def ATLANTIC_Y_INDICES : Int × Int := (7350, -1)

/-- `PACIFIC_X_INDICES = (1500, 5900)`. -/
def PACIFIC_X_INDICES : Int × Int := (1500, 5900)

/-- Center-family (T-grid) variables. -/
def T_VARS : List String := ["nav_lon", "nav_lat", "glamt", "gphit", "e1t", "e2t"]

/-- EastFace-family (U-grid) variables. -/
def U_VARS : List String := ["glamu", "gphiu", "e1u", "e2u"]

/-- NorthFace-family (V-grid) variables. -/
def V_VARS : List String := ["glamv", "gphiv", "e1v", "e2v"]

/-- Corner-family (F-grid) variables. -/
def F_VARS : List String := ["glamf", "gphif", "e1f", "e2f"]

/-- The iteration order of `create_dataset`: `T_VARS + U_VARS + V_VARS + F_VARS`
(the configured field names; 6 + 4 + 4 + 4 = 18 of them). -/
def ALL_VARS : List String := T_VARS ++ U_VARS ++ V_VARS ++ F_VARS

/-- Inclusive label-based slice along one axis: keeps the elements whose
0-based position `i` satisfies `a ≤ i ≤ b` (both bounds included, as in
xarray/pandas label slicing). -/
def sliceInc (l : List α) (a b : Int) : List α :=
  (l.take (b + 1).toNat).drop a.toNat

/-- `pcf[var].sel(y=slice(y0, y1), x=slice(x0, x1)).values`: inclusive
slice of the rows, then inclusive slice of each kept row. -/
def sel (g : Grid2D α) (y0 y1 x0 x1 : Int) : Grid2D α :=
  (sliceInc g y0 y1).map (fun row => sliceInc row x0 x1)

/-- `np.flip(a)` with no axis argument: reverse along every axis, i.e.
reverse the row order and every row's column order. -/
def npFlip (g : Grid2D α) : Grid2D α :=
  (g.map List.reverse).reverse

/-- The cut extent `[y_min, y_max, x_min, x_max]`. -/
structure Extent where
  y0 : Int
  y1 : Int
  x0 : Int
  x1 : Int
deriving DecidableEq, Repr

/-- How a `grid_selector` call can fail: the `ValueError` raised when the
variable is absent from the dataset (carrying its message), or the
`UnboundLocalError` hit at `return grid_array` when `pac_patch` is set and
the variable belongs to none of the four family lists. -/
inductive SelError where
  | unknownField (msg : String)
  | unboundLocal
deriving DecidableEq, Repr

/-- The message of the `ValueError` raised for an absent variable. -/
def errMsg (var : String) : String :=
  "Variable " ++ var ++ " not found in the dataset."

/-- Embedding of `grid_selector(pcf, var, extent, pac_patch)`. -/
def grid_selector (pcf : Dataset α) (var : String) (extent : Extent)
    (pac_patch : Bool) : Except SelError (Grid2D α) :=
  match pcf.lookup var with
  | none => .error (.unknownField (errMsg var))
  | some arr =>
    if pac_patch then
      if var ∈ T_VARS then
        .ok (npFlip (sel arr extent.y0 extent.y1 extent.x0 extent.x1))
      else if var ∈ U_VARS then
        .ok (npFlip (sel arr extent.y0 extent.y1 (extent.x0 - 1) (extent.x1 - 1)))
      else if var ∈ V_VARS then
        .ok (npFlip (sel arr (extent.y0 - 1) (extent.y1 - 1) extent.x0 extent.x1))
      else if var ∈ F_VARS then
        .ok (npFlip (sel arr (extent.y0 - 1) (extent.y1 - 1) (extent.x0 - 1) (extent.x1 - 1)))
      else
        .error .unboundLocal
    else
      .ok (sel arr extent.y0 extent.y1 extent.x0 extent.x1)

/-- Embedding of `create_dataset(pcf, extent, pac_patch)`: apply
`grid_selector` to every configured variable in order, collecting the
results keyed by name; the first failure propagates and no partial
collection is returned. -/
def create_dataset (pcf : Dataset α) (extent : Extent) (pac_patch : Bool) :
    Except SelError (Dataset α) :=
  ALL_VARS.mapM fun var =>
    (grid_selector pcf var extent pac_patch).map fun arr => (var, arr)

/-- `x_middle = int(pcf['x'].size / 2)` (floor division for a
non-negative size). -/
def x_middle (x_size : Nat) : Nat := x_size / 2

/-- `atl_first_xind = PACIFIC_X_INDICES[1] + (x_middle - PACIFIC_X_INDICES[1]) * 2 + 1`. -/
def atl_first_xind (x_size : Nat) : Int :=
  PACIFIC_X_INDICES.2 + ((x_middle x_size : Int) - PACIFIC_X_INDICES.2) * 2 + 1

/-- `atl_last_xind = pcf['x'].size - PACIFIC_X_INDICES[0] + 1`. -/
def atl_last_xind (x_size : Nat) : Int :=
  (x_size : Int) - PACIFIC_X_INDICES.1 + 1

/-- `atl_extent = [ATLANTIC_Y_INDICES[0], ATLANTIC_Y_INDICES[1], atl_first_xind, atl_last_xind]`. -/
def atl_extent (x_size : Nat) : Extent :=
  ⟨ATLANTIC_Y_INDICES.1, ATLANTIC_Y_INDICES.2, atl_first_xind x_size, atl_last_xind x_size⟩

/-- `pac_extent = [PACIFIC_Y_INDICES[0], PACIFIC_Y_INDICES[1], PACIFIC_X_INDICES[0], PACIFIC_X_INDICES[1]]`. -/
def pac_extent : Extent :=
  ⟨PACIFIC_Y_INDICES.1, PACIFIC_Y_INDICES.2, PACIFIC_X_INDICES.1, PACIFIC_X_INDICES.2⟩

/-- `xr.concat([d1, d2], dim='y')`: for every field of the first dataset,
append the matching field of the second dataset along the row axis. -/
def concat_y (d1 d2 : Dataset α) : Dataset α :=
  d1.map fun p => (p.1, p.2 ++ ((d2.lookup p.1).getD []))

/-- The dataset `main` assembles and writes: the Atlantic regional
dataset concatenated with the Pacific regional dataset along `y`,
Atlantic first (`xr.concat([atl_dataset, pac_dataset], dim='y')`).
`x_size` is the parent grid's total column count `pcf['x'].size`. -/
def main_dataset (pcf : Dataset α) (x_size : Nat) :
    Except SelError (Dataset α) := do
  let atl ← create_dataset pcf (atl_extent x_size) false
  let pac ← create_dataset pcf pac_extent true
  return concat_y atl pac

/-- Number of rows and number of columns of a 2-D array (the column
count read off the first row, as for a rectangular numpy array). -/
def dims (g : Grid2D α) : Nat × Nat :=
  (g.length, (g.headI).length)

/-- A 2-D array is rectangular: every row has the length of the first. -/
def isRect (g : Grid2D α) : Prop :=
  ∀ r ∈ g, r.length = (g.headI).length

instance (g : Grid2D α) : Decidable (isRect g) :=
  List.decidableBAll _ g

/-! ### Helper lemmas: branch behaviour of `grid_selector` -/

theorem mem_U_not_T {var : String} (h : var ∈ U_VARS) : var ∉ T_VARS := by
  fin_cases h <;> decide

theorem mem_V_not_TU {var : String} (h : var ∈ V_VARS) :
    var ∉ T_VARS ∧ var ∉ U_VARS := by
  fin_cases h <;> exact ⟨by decide, by decide⟩

theorem mem_F_not_TUV {var : String} (h : var ∈ F_VARS) :
    var ∉ T_VARS ∧ var ∉ U_VARS ∧ var ∉ V_VARS := by
  fin_cases h <;> exact ⟨by decide, by decide, by decide⟩

theorem grid_selector_absent {pcf : Dataset α} {var : String} (ext : Extent)
    (pac : Bool) (h : pcf.lookup var = none) :
    grid_selector pcf var ext pac = .error (.unknownField (errMsg var)) := by
  unfold grid_selector
  rw [h]

theorem grid_selector_atl {pcf : Dataset α} {var : String} (ext : Extent)
    {arr : Grid2D α} (h : pcf.lookup var = some arr) :
    grid_selector pcf var ext false =
      .ok (sel arr ext.y0 ext.y1 ext.x0 ext.x1) := by
  unfold grid_selector
  rw [h]
  rfl

theorem grid_selector_pac_T {pcf : Dataset α} {var : String} (ext : Extent)
    {arr : Grid2D α} (h : pcf.lookup var = some arr) (hT : var ∈ T_VARS) :
    grid_selector pcf var ext true =
      .ok (npFlip (sel arr ext.y0 ext.y1 ext.x0 ext.x1)) := by
  unfold grid_selector
  rw [h]
  simp [hT]

theorem grid_selector_pac_U {pcf : Dataset α} {var : String} (ext : Extent)
    {arr : Grid2D α} (h : pcf.lookup var = some arr) (hU : var ∈ U_VARS) :
    grid_selector pcf var ext true =
      .ok (npFlip (sel arr ext.y0 ext.y1 (ext.x0 - 1) (ext.x1 - 1))) := by
  unfold grid_selector
  rw [h]
  simp [mem_U_not_T hU, hU]

theorem grid_selector_pac_V {pcf : Dataset α} {var : String} (ext : Extent)
    {arr : Grid2D α} (h : pcf.lookup var = some arr) (hV : var ∈ V_VARS) :
    grid_selector pcf var ext true =
      .ok (npFlip (sel arr (ext.y0 - 1) (ext.y1 - 1) ext.x0 ext.x1)) := by
  unfold grid_selector
  rw [h]
  simp [(mem_V_not_TU hV).1, (mem_V_not_TU hV).2, hV]

theorem grid_selector_pac_F {pcf : Dataset α} {var : String} (ext : Extent)
    {arr : Grid2D α} (h : pcf.lookup var = some arr) (hF : var ∈ F_VARS) :
    grid_selector pcf var ext true =
      .ok (npFlip (sel arr (ext.y0 - 1) (ext.y1 - 1) (ext.x0 - 1) (ext.x1 - 1))) := by
  unfold grid_selector
  rw [h]
  simp [(mem_F_not_TUV hF).1, (mem_F_not_TUV hF).2.1, (mem_F_not_TUV hF).2.2, hF]

theorem grid_selector_pac_none {pcf : Dataset α} {var : String} (ext : Extent)
    {arr : Grid2D α} (h : pcf.lookup var = some arr)
    (h1 : var ∉ T_VARS) (h2 : var ∉ U_VARS) (h3 : var ∉ V_VARS)
    (h4 : var ∉ F_VARS) :
    grid_selector pcf var ext true = .error .unboundLocal := by
  unfold grid_selector
  rw [h]
  simp [h1, h2, h3, h4]

/-! ### Shape and content lemmas for slicing and flipping -/

theorem headI_mem_of_ne_nil {β : Type} [Inhabited β] {l : List β}
    (h : l ≠ []) : l.headI ∈ l := by
  cases l with
  | nil => exact absurd rfl h
  | cons a t => exact List.mem_cons_self a t

theorem npFlip_length (g : Grid2D α) : (npFlip g).length = g.length := by
  simp [npFlip]

theorem npFlip_getElem (g : Grid2D α) (i : Nat) (h : i < g.length) :
    (npFlip g)[i]? = (g[g.length - 1 - i]?).map List.reverse := by
  unfold npFlip
  rw [List.getElem?_reverse (by simpa using h)]
  simp [List.getElem?_map]

theorem npFlip_mem {g : Grid2D α} {r : List α} (h : r ∈ npFlip g) :
    ∃ s ∈ g, r = s.reverse := by
  unfold npFlip at h
  rw [List.mem_reverse] at h
  obtain ⟨s, hs, hr⟩ := List.mem_map.1 h
  exact ⟨s, hs, hr.symm⟩

theorem npFlip_rect_dims {g : Grid2D α} (h : isRect g) :
    isRect (npFlip g) ∧ dims (npFlip g) = dims g := by
  cases hg : g with
  | nil => subst hg; exact ⟨by simp [isRect, npFlip], rfl⟩
  | cons r t =>
    subst hg
    have hlen : ∀ s ∈ npFlip (r :: t), s.length = (r :: t).headI.length := by
      intro s hs
      obtain ⟨u, hu, rfl⟩ := npFlip_mem hs
      simpa using h u hu
    have hne : npFlip (r :: t) ≠ [] := by
      intro hnil
      have := npFlip_length (r :: t)
      rw [hnil] at this
      simp at this
    have hhead : (npFlip (r :: t)).headI.length = (r :: t).headI.length :=
      hlen _ (headI_mem_of_ne_nil hne)
    refine ⟨?_, ?_⟩
    · intro s hs
      rw [hlen s hs, hhead]
    · unfold dims
      rw [npFlip_length, hhead]

theorem sliceInc_length (l : List α) (a b : Int) :
    (sliceInc l a b).length = min (b + 1).toNat l.length - a.toNat := by
  simp [sliceInc]

theorem sliceInc_length_of_bounds {l : List α} {a b : Int} (h0 : 0 ≤ a)
    (hab : a ≤ b) (hb : b < (l.length : Int)) :
    (sliceInc l a b).length = (b - a + 1).toNat := by
  rw [sliceInc_length]
  omega

theorem mem_of_mem_sliceInc {l : List α} {a b : Int} {x : α}
    (h : x ∈ sliceInc l a b) : x ∈ l :=
  List.mem_of_mem_take (List.mem_of_mem_drop h)

theorem sel_rect_dims {g : Grid2D α} {y0 y1 x0 x1 : Int} (hrect : isRect g)
    (hy0 : 0 ≤ y0) (hy : y0 ≤ y1) (hy1 : y1 < (g.length : Int))
    (hx0 : 0 ≤ x0) (hx : x0 ≤ x1) (hx1 : x1 < ((g.headI).length : Int)) :
    isRect (sel g y0 y1 x0 x1) ∧
    dims (sel g y0 y1 x0 x1) = ((y1 - y0 + 1).toNat, (x1 - x0 + 1).toNat) := by
  have hrows : (sel g y0 y1 x0 x1).length = (y1 - y0 + 1).toNat := by
    unfold sel
    rw [List.length_map]
    exact sliceInc_length_of_bounds hy0 hy hy1
  have hcols : ∀ r ∈ sel g y0 y1 x0 x1, r.length = (x1 - x0 + 1).toNat := by
    intro r hr
    obtain ⟨s, hs, rfl⟩ := List.mem_map.1 hr
    have hsg : s ∈ g := mem_of_mem_sliceInc hs
    have hslen : s.length = (g.headI).length := hrect s hsg
    exact sliceInc_length_of_bounds hx0 hx (by rw [hslen]; exact hx1)
  have hne : sel g y0 y1 x0 x1 ≠ [] := by
    intro hnil
    rw [hnil] at hrows
    simp at hrows
    omega
  have hhead : (sel g y0 y1 x0 x1).headI.length = (x1 - x0 + 1).toNat :=
    hcols _ (headI_mem_of_ne_nil hne)
  refine ⟨?_, ?_⟩
  · intro r hr
    rw [hcols r hr, hhead]
  · unfold dims
    rw [hrows, hhead]

/-- The family-determined window the mirrored (Pacific) branch slices
before flipping: Center as-is, EastFace column bounds shifted by `-1`,
NorthFace row bounds shifted by `-1`, Corner both shifted by `-1`. -/
def family_window (arr : Grid2D α) (var : String) (ext : Extent) : Grid2D α :=
  if var ∈ T_VARS then sel arr ext.y0 ext.y1 ext.x0 ext.x1
  else if var ∈ U_VARS then sel arr ext.y0 ext.y1 (ext.x0 - 1) (ext.x1 - 1)
  else if var ∈ V_VARS then sel arr (ext.y0 - 1) (ext.y1 - 1) ext.x0 ext.x1
  else sel arr (ext.y0 - 1) (ext.y1 - 1) (ext.x0 - 1) (ext.x1 - 1)

theorem grid_selector_pac_eq_flip_window {pcf : Dataset α} {var : String}
    (ext : Extent) {arr : Grid2D α} (hlk : pcf.lookup var = some arr)
    (hfam : var ∈ ALL_VARS) :
    grid_selector pcf var ext true = .ok (npFlip (family_window arr var ext)) := by
  unfold ALL_VARS at hfam
  simp only [List.mem_append] at hfam
  rcases hfam with ((hT | hU) | hV) | hF
  · rw [grid_selector_pac_T ext hlk hT]
    unfold family_window
    rw [if_pos hT]
  · rw [grid_selector_pac_U ext hlk hU]
    unfold family_window
    rw [if_neg (mem_U_not_T hU), if_pos hU]
  · rw [grid_selector_pac_V ext hlk hV]
    unfold family_window
    rw [if_neg (mem_V_not_TU hV).1, if_neg (mem_V_not_TU hV).2, if_pos hV]
  · rw [grid_selector_pac_F ext hlk hF]
    unfold family_window
    rw [if_neg (mem_F_not_TUV hF).1, if_neg (mem_F_not_TUV hF).2.1,
      if_neg (mem_F_not_TUV hF).2.2]

/-! ### Concrete test fixtures -/

/-- A 3×3 test field. -/
def g3 : Grid2D Nat := [[0, 1, 2], [3, 4, 5], [6, 7, 8]]

/-- A parent grid holding the 3×3 test field under every configured name. -/
def pcf3 : Dataset Nat := ALL_VARS.map fun v => (v, g3)

/-- A 21×41 test field with the deterministic pattern `100*row + col`. -/
def gBig : Grid2D Nat :=
  (List.range 21).map fun i => (List.range 41).map fun j => 100 * i + j

/-! ### Claims -/

/-- C1: for every field present in the parent grid, `select` with
`mirrored = true` slices the window determined by the field's family:
Center rows `[y0:y1]` cols `[x0:x1]`; EastFace rows `[y0:y1]` cols
`[x0-1:x1-1]`; NorthFace rows `[y0-1:y1-1]` cols `[x0:x1]`; Corner rows
`[y0-1:y1-1]` cols `[x0-1:x1-1]`. -/
theorem C1_mirrored_family_windows (pcf : Dataset α) (var : String)
    (ext : Extent) (arr : Grid2D α) (hlk : pcf.lookup var = some arr) :
    (var ∈ T_VARS → grid_selector pcf var ext true =
      .ok (npFlip (sel arr ext.y0 ext.y1 ext.x0 ext.x1))) ∧
    (var ∈ U_VARS → grid_selector pcf var ext true =
      .ok (npFlip (sel arr ext.y0 ext.y1 (ext.x0 - 1) (ext.x1 - 1)))) ∧
    (var ∈ V_VARS → grid_selector pcf var ext true =
      .ok (npFlip (sel arr (ext.y0 - 1) (ext.y1 - 1) ext.x0 ext.x1))) ∧
    (var ∈ F_VARS → grid_selector pcf var ext true =
      .ok (npFlip (sel arr (ext.y0 - 1) (ext.y1 - 1) (ext.x0 - 1) (ext.x1 - 1)))) :=
  ⟨grid_selector_pac_T ext hlk, grid_selector_pac_U ext hlk,
   grid_selector_pac_V ext hlk, grid_selector_pac_F ext hlk⟩

/-- C1 witness: for the EastFace field `glamu` with extent
`(10, 20, 30, 40)` the mirrored selection uses rows `[10:20]` and columns
`[29:39]`, an 11×11 window. -/
theorem C1_witness :
    grid_selector [("glamu", gBig)] "glamu" ⟨10, 20, 30, 40⟩ true =
      .ok (npFlip (sel gBig 10 20 29 39)) ∧
    dims (sel gBig 10 20 29 39) = (11, 11) :=
  ⟨(C1_mirrored_family_windows [("glamu", gBig)] "glamu" ⟨10, 20, 30, 40⟩
      gBig (by rfl)).2.1 (by decide), by decide⟩

/-- C2: for every configured field present in the parent grid, `select`
with `mirrored = true` returns the family-offset window reversed along
both axes simultaneously: the result is `np.flip` of the window, it has
as many rows as the window, row `i` of the result is row `length - 1 - i`
of the window with its columns reversed, and for a rectangular window the
result's shape equals the window's shape. -/
theorem C2_mirrored_double_reversal (pcf : Dataset α) (var : String)
    (ext : Extent) (arr : Grid2D α) (hlk : pcf.lookup var = some arr)
    (hfam : var ∈ ALL_VARS) :
    grid_selector pcf var ext true =
      .ok (npFlip (family_window arr var ext)) ∧
    (npFlip (family_window arr var ext)).length =
      (family_window arr var ext).length ∧
    (∀ i, i < (family_window arr var ext).length →
      (npFlip (family_window arr var ext))[i]? =
        ((family_window arr var ext)[(family_window arr var ext).length - 1 - i]?).map
          List.reverse) ∧
    (isRect (family_window arr var ext) →
      dims (npFlip (family_window arr var ext)) = dims (family_window arr var ext)) :=
  ⟨grid_selector_pac_eq_flip_window ext hlk hfam,
   npFlip_length _,
   fun i hi => npFlip_getElem _ i hi,
   fun hrect => (npFlip_rect_dims hrect).2⟩

/-- C2 witness: for the NorthFace field `glamv` on the 3×3 fixture with
extent `(1, 2, 0, 1)`, the mirrored result is the double reversal of the
row-offset window `[0:1]×[0:1]`, sharing its 2×2 shape. -/
theorem C2_witness :
    grid_selector [("glamv", g3)] "glamv" ⟨1, 2, 0, 1⟩ true =
      .ok (npFlip (family_window g3 "glamv" ⟨1, 2, 0, 1⟩)) ∧
    family_window g3 "glamv" ⟨1, 2, 0, 1⟩ = [[0, 1], [3, 4]] ∧
    npFlip (family_window g3 "glamv" ⟨1, 2, 0, 1⟩) = [[4, 3], [1, 0]] ∧
    dims (npFlip (family_window g3 "glamv" ⟨1, 2, 0, 1⟩)) =
      dims (family_window g3 "glamv" ⟨1, 2, 0, 1⟩) :=
  ⟨(C2_mirrored_double_reversal [("glamv", g3)] "glamv" ⟨1, 2, 0, 1⟩ g3
      (by rfl) (by decide)).1,
   by decide, by decide,
   (C2_mirrored_double_reversal [("glamv", g3)] "glamv" ⟨1, 2, 0, 1⟩ g3
      (by rfl) (by decide)).2.2.2 (by decide)⟩

/-- C3: for every field present in the parent grid, regardless of family,
`select` with `mirrored = false` returns exactly the sub-array over rows
`[y0:y1]` and columns `[x0:x1]`, with no offset and no reversal. -/
theorem C3_atlantic_plain_slice (pcf : Dataset α) (var : String)
    (ext : Extent) (arr : Grid2D α) (hlk : pcf.lookup var = some arr) :
    grid_selector pcf var ext false =
      .ok (sel arr ext.y0 ext.y1 ext.x0 ext.x1) :=
  grid_selector_atl ext hlk

/-- C3 witness: a field outside every family list is still sliced plainly
when `mirrored = false`. -/
theorem C3_witness :
    grid_selector [("depth", g3)] "depth" ⟨1, 2, 0, 1⟩ false =
      .ok (sel g3 1 2 0 1) ∧
    sel g3 1 2 0 1 = [[3, 4], [6, 7]] :=
  ⟨C3_atlantic_plain_slice [("depth", g3)] "depth" ⟨1, 2, 0, 1⟩ g3 (by rfl),
   by decide⟩

/-- C5: `select` raises the unknown-field error, whose message contains
the requested field name, exactly when the field is absent from the
parent grid; a present field never triggers that error. -/
theorem C5_unknown_field_iff_absent (pcf : Dataset α) (var : String)
    (ext : Extent) (pac : Bool) :
    (pcf.lookup var = none →
      grid_selector pcf var ext pac = .error (.unknownField (errMsg var)) ∧
      ∃ p s, errMsg var = p ++ var ++ s) ∧
    (∀ arr, pcf.lookup var = some arr →
      ∀ msg, grid_selector pcf var ext pac ≠ .error (.unknownField msg)) := by
  constructor
  · intro h
    exact ⟨grid_selector_absent ext pac h,
      "Variable ", " not found in the dataset.", rfl⟩
  · intro arr hlk msg
    unfold grid_selector
    rw [hlk]
    cases pac
    · simp
    · by_cases hT : var ∈ T_VARS
      · simp [hT]
      · by_cases hU : var ∈ U_VARS
        · simp [hT, hU]
        · by_cases hV : var ∈ V_VARS
          · simp [hT, hU, hV]
          · by_cases hF : var ∈ F_VARS
            · simp [hT, hU, hV, hF]
            · simp [hT, hU, hV, hF]

/-- C5 witness: on an empty parent grid the call fails with the
unknown-field error carrying the name; on a grid holding `glamt` it does
not. -/
theorem C5_witness :
    (grid_selector ([] : Dataset Nat) "glamt" ⟨0, 1, 0, 1⟩ true =
      .error (.unknownField (errMsg "glamt")) ∧
      ∃ p s, errMsg "glamt" = p ++ "glamt" ++ s) ∧
    ∀ msg, grid_selector [("glamt", g3)] "glamt" ⟨0, 1, 0, 1⟩ true ≠
      .error (.unknownField msg) :=
  ⟨(C5_unknown_field_iff_absent ([] : Dataset Nat) "glamt" ⟨0, 1, 0, 1⟩
      true).1 (by rfl),
   (C5_unknown_field_iff_absent [("glamt", g3)] "glamt" ⟨0, 1, 0, 1⟩
      true).2 g3 (by rfl)⟩

/-! ### Lemmas about assembling the dataset (`List.mapM` over `Except`) -/

theorem mapM_grid_ok (pcf : Dataset α) (ext : Extent) (pac : Bool)
    (P : Grid2D α → Prop) (vars : List String)
    (h : ∀ v ∈ vars, ∃ g, grid_selector pcf v ext pac = .ok g ∧ P g) :
    ∃ d : Dataset α,
      (vars.mapM fun var =>
        (grid_selector pcf var ext pac).map fun arr => (var, arr)) = .ok d ∧
      d.map Prod.fst = vars ∧ ∀ p ∈ d, P p.2 := by
  induction vars with
  | nil => exact ⟨[], rfl, rfl, by simp⟩
  | cons v vs ih =>
    obtain ⟨g, hg, hPg⟩ := h v (List.mem_cons_self v vs)
    obtain ⟨d, hd, hfst, hP⟩ := ih fun u hu => h u (List.mem_cons_of_mem v hu)
    refine ⟨(v, g) :: d, ?_, ?_, ?_⟩
    · rw [List.mapM_cons, hg, hd]
      rfl
    · simp [hfst]
    · intro p hp
      rcases List.mem_cons.1 hp with h1 | h2
      · rw [h1]
        exact hPg
      · exact hP p h2

theorem mapM_grid_error (pcf : Dataset α) (ext : Extent) (pac : Bool)
    (vars : List String)
    (h : ∃ v ∈ vars, ∃ e, grid_selector pcf v ext pac = .error e) :
    ∃ e, (vars.mapM fun var =>
        (grid_selector pcf var ext pac).map fun arr => (var, arr)) = .error e ∧
      ∃ v ∈ vars, grid_selector pcf v ext pac = .error e := by
  induction vars with
  | nil => simp at h
  | cons v vs ih =>
    cases hfv : grid_selector pcf v ext pac with
    | error e =>
      refine ⟨e, ?_, v, List.mem_cons_self v vs, hfv⟩
      rw [List.mapM_cons, hfv]
      rfl
    | ok g =>
      have h' : ∃ u ∈ vs, ∃ e, grid_selector pcf u ext pac = .error e := by
        obtain ⟨u, hu, e, he⟩ := h
        rcases List.mem_cons.1 hu with h1 | h2
        · rw [h1] at he
          rw [he] at hfv
          cases hfv
        · exact ⟨u, h2, e, he⟩
      obtain ⟨e, hm, u, hu, he⟩ := ih h'
      refine ⟨e, ?_, u, List.mem_cons_of_mem v hu, he⟩
      rw [List.mapM_cons, hfv, hm]
      rfl

theorem mapM_grid_ok_inv (pcf : Dataset α) (ext : Extent) (pac : Bool)
    (vars : List String) (d : Dataset α)
    (h : (vars.mapM fun var =>
        (grid_selector pcf var ext pac).map fun arr => (var, arr)) = .ok d) :
    ∀ v ∈ vars, ∃ g, grid_selector pcf v ext pac = .ok g := by
  induction vars generalizing d with
  | nil => simp
  | cons v vs ih =>
    rw [List.mapM_cons] at h
    cases hfv : grid_selector pcf v ext pac with
    | error e =>
      rw [hfv] at h
      exact absurd h (by intro hh; cases hh)
    | ok g =>
      rw [hfv] at h
      cases hm : (vs.mapM fun var =>
          (grid_selector pcf var ext pac).map fun arr => (var, arr)) with
      | error e =>
        rw [hm] at h
        exact absurd h (by intro hh; cases hh)
      | ok d' =>
        intro u hu
        rcases List.mem_cons.1 hu with h1 | h2
        · exact ⟨g, h1 ▸ hfv⟩
        · exact ih d' hm u h2

theorem grid_selector_ok_dims (pcf : Dataset α) (v : String) (ext : Extent)
    (pac : Bool) (R C : Nat) (arr : Grid2D α)
    (hlk : pcf.lookup v = some arr) (hfam : v ∈ ALL_VARS) (hrect : isRect arr)
    (hR : arr.length = R) (hC : (arr.headI).length = C)
    (hy0 : 1 ≤ ext.y0) (hy : ext.y0 ≤ ext.y1) (hy1 : ext.y1 < (R : Int))
    (hx0 : 1 ≤ ext.x0) (hx : ext.x0 ≤ ext.x1) (hx1 : ext.x1 < (C : Int)) :
    ∃ g, grid_selector pcf v ext pac = .ok g ∧
      dims g = ((ext.y1 - ext.y0 + 1).toNat, (ext.x1 - ext.x0 + 1).toNat) := by
  have hRi : ((arr.length : Int)) = (R : Int) := by exact_mod_cast hR
  have hCi : (((arr.headI).length : Int)) = (C : Int) := by exact_mod_cast hC
  have hb1 : (0 : Int) ≤ ext.y0 := by omega
  have hb2 : ext.y1 < ((arr.length : Int)) := by omega
  have hb3 : (0 : Int) ≤ ext.x0 := by omega
  have hb4 : ext.x1 < (((arr.headI).length : Int)) := by omega
  have hb1' : (0 : Int) ≤ ext.y0 - 1 := by omega
  have hy' : ext.y0 - 1 ≤ ext.y1 - 1 := by omega
  have hb2' : ext.y1 - 1 < ((arr.length : Int)) := by omega
  have hb3' : (0 : Int) ≤ ext.x0 - 1 := by omega
  have hx' : ext.x0 - 1 ≤ ext.x1 - 1 := by omega
  have hb4' : ext.x1 - 1 < (((arr.headI).length : Int)) := by omega
  cases pac with
  | false =>
    refine ⟨_, grid_selector_atl ext hlk, ?_⟩
    exact (sel_rect_dims hrect hb1 hy hb2 hb3 hx hb4).2
  | true =>
    unfold ALL_VARS at hfam
    simp only [List.mem_append] at hfam
    rcases hfam with ((hT | hU) | hV) | hF
    · refine ⟨_, grid_selector_pac_T ext hlk hT, ?_⟩
      have hw := sel_rect_dims hrect hb1 hy hb2 hb3 hx hb4
      rw [(npFlip_rect_dims hw.1).2, hw.2]
    · refine ⟨_, grid_selector_pac_U ext hlk hU, ?_⟩
      have hw := sel_rect_dims hrect hb1 hy hb2 hb3' hx' hb4'
      rw [(npFlip_rect_dims hw.1).2, hw.2]
      simp only [Prod.mk.injEq, true_and, and_true]
      omega
    · refine ⟨_, grid_selector_pac_V ext hlk hV, ?_⟩
      have hw := sel_rect_dims hrect hb1' hy' hb2' hb3 hx hb4
      rw [(npFlip_rect_dims hw.1).2, hw.2]
      simp only [Prod.mk.injEq, true_and, and_true]
      omega
    · refine ⟨_, grid_selector_pac_F ext hlk hF, ?_⟩
      have hw := sel_rect_dims hrect hb1' hy' hb2' hb3' hx' hb4'
      rw [(npFlip_rect_dims hw.1).2, hw.2]
      simp only [Prod.mk.injEq, true_and, and_true]
      omega

/-- C4 counterexample: on a parent grid holding the same rectangular 3×3
field under every configured name, with extent `(1, 1, 0, 1)` and the
mirrored flag, `assemble` succeeds but yields 18 field names (not 16) and
two fields of different shapes (`glamt` is 1×2, `glamu` is 1×1, because
the shifted EastFace column window `[-1:0]` is clipped at the array
edge). -/
theorem C4_counterexample :
    ((create_dataset pcf3 ⟨1, 1, 0, 1⟩ true).map fun d => d.map Prod.fst) =
      .ok ALL_VARS ∧
    ALL_VARS.length = 18 ∧
    ((create_dataset pcf3 ⟨1, 1, 0, 1⟩ true).map fun d =>
      (d.lookup "glamt", d.lookup "glamu")) = .ok (some [[4, 3]], some [[3]]) ∧
    dims ([[4, 3]] : Grid2D Nat) ≠ dims ([[3]] : Grid2D Nat) := by
  refine ⟨by rfl, by rfl, by rfl, by decide⟩

/-- C4 (amended): over a parent grid whose configured fields are all
rectangular with a common shape `R×C`, and an extent whose plain and
`-1`-shifted windows both lie inside the grid
(`1 ≤ y0 ≤ y1 < R`, `1 ≤ x0 ≤ x1 < C`), `assemble` returns a collection
whose field names are exactly the 18 configured names and whose fields
all share the identical output shape `(y1-y0+1) × (x1-x0+1)`. -/
theorem C4_amended_names_and_shapes (pcf : Dataset α) (ext : Extent)
    (pac : Bool) (R C : Nat)
    (hfields : ∀ v ∈ ALL_VARS, ∃ arr, pcf.lookup v = some arr ∧ isRect arr ∧
      arr.length = R ∧ (arr.headI).length = C)
    (hy0 : 1 ≤ ext.y0) (hy : ext.y0 ≤ ext.y1) (hy1 : ext.y1 < (R : Int))
    (hx0 : 1 ≤ ext.x0) (hx : ext.x0 ≤ ext.x1) (hx1 : ext.x1 < (C : Int)) :
    ∃ d, create_dataset pcf ext pac = .ok d ∧
      d.map Prod.fst = ALL_VARS ∧
      ∀ p ∈ d, dims p.2 =
        ((ext.y1 - ext.y0 + 1).toNat, (ext.x1 - ext.x0 + 1).toNat) := by
  unfold create_dataset
  exact mapM_grid_ok pcf ext pac
    (fun g => dims g = ((ext.y1 - ext.y0 + 1).toNat, (ext.x1 - ext.x0 + 1).toNat))
    ALL_VARS
    (fun v hv => by
      obtain ⟨arr, hlk, hrect, hR, hC⟩ := hfields v hv
      exact grid_selector_ok_dims pcf v ext pac R C arr hlk hv hrect hR hC
        hy0 hy hy1 hx0 hx hx1)

/-- C4 witness: on the uniform 3×3 fixture with the interior extent
`(1, 2, 1, 2)` and the mirrored flag, `assemble` yields exactly the 18
configured names, every field 2×2. -/
theorem C4_witness :
    ∃ d, create_dataset pcf3 ⟨1, 2, 1, 2⟩ true = .ok d ∧
      d.map Prod.fst = ALL_VARS ∧
      ∀ p ∈ d, dims p.2 = (2, 2) := by
  have hfields : ∀ v ∈ ALL_VARS, ∃ arr, pcf3.lookup v = some arr ∧
      isRect arr ∧ arr.length = 3 ∧ (arr.headI).length = 3 := by
    have hlk : ∀ v ∈ ALL_VARS, pcf3.lookup v = some g3 := by decide
    exact fun v hv => ⟨g3, hlk v hv, by decide, rfl, rfl⟩
  exact C4_amended_names_and_shapes pcf3 ⟨1, 2, 1, 2⟩ true 3 3 hfields
    (by decide) (by decide) (by decide) (by decide) (by decide) (by decide)

/-- C6: `assemble` succeeds only when every configured field's selection
succeeds, and if any underlying selection fails then `assemble` fails
with an error produced by one of the underlying selections (no partial
collection is returned). -/
theorem C6_error_propagation (pcf : Dataset α) (ext : Extent) (pac : Bool) :
    (∀ d, create_dataset pcf ext pac = .ok d →
      ∀ v ∈ ALL_VARS, ∃ g, grid_selector pcf v ext pac = .ok g) ∧
    ((∃ v ∈ ALL_VARS, ∃ e, grid_selector pcf v ext pac = .error e) →
      ∃ e, create_dataset pcf ext pac = .error e ∧
        ∃ v ∈ ALL_VARS, grid_selector pcf v ext pac = .error e) := by
  constructor
  · intro d hd
    exact mapM_grid_ok_inv pcf ext pac ALL_VARS d hd
  · intro h
    exact mapM_grid_error pcf ext pac ALL_VARS h

/-- C6 witness: on an empty parent grid the first configured field is
absent, so `assemble` propagates an unknown-field error raised by an
underlying selection. -/
theorem C6_witness :
    ∃ e, create_dataset ([] : Dataset Nat) ⟨0, 1, 0, 1⟩ true = .error e ∧
      ∃ v ∈ ALL_VARS,
        grid_selector ([] : Dataset Nat) v ⟨0, 1, 0, 1⟩ true = .error e :=
  (C6_error_propagation ([] : Dataset Nat) ⟨0, 1, 0, 1⟩ true).2
    ⟨"nav_lon", by decide, .unknownField (errMsg "nav_lon"), by rfl⟩

/-- C9 (implicit): for a field present in the parent grid but in none of
the four family lists, the mirrored branch assigns no result and the call
fails (the unbound-local fall-through), while the same call with
`mirrored = false` succeeds. -/
theorem C9_no_family_unbound (pcf : Dataset α) (var : String) (ext : Extent)
    (arr : Grid2D α) (hlk : pcf.lookup var = some arr)
    (h1 : var ∉ T_VARS) (h2 : var ∉ U_VARS) (h3 : var ∉ V_VARS)
    (h4 : var ∉ F_VARS) :
    grid_selector pcf var ext true = .error .unboundLocal ∧
    grid_selector pcf var ext false =
      .ok (sel arr ext.y0 ext.y1 ext.x0 ext.x1) :=
  ⟨grid_selector_pac_none ext hlk h1 h2 h3 h4, grid_selector_atl ext hlk⟩

/-- C9 witness: the present-but-familyless field `depth` fails under the
mirrored policy and succeeds under the plain policy. -/
theorem C9_witness :
    grid_selector [("depth", g3)] "depth" ⟨0, 1, 0, 1⟩ true =
      .error .unboundLocal ∧
    grid_selector [("depth", g3)] "depth" ⟨0, 1, 0, 1⟩ false =
      .ok (sel g3 0 1 0 1) :=
  C9_no_family_unbound [("depth", g3)] "depth" ⟨0, 1, 0, 1⟩ g3 (by rfl)
    (by decide) (by decide) (by decide) (by decide)

/-- State-passing view of a `grid_selector` call: the call's result
together with the parent dataset as it stands after the call.  The
source body only reads `pcf` (the membership test `var not in pcf` and
the subscript selection `pcf[var].sel(...)`); it contains no assignment
to `pcf` or to any other state, so the dataset after the call is the
dataset before it. -/
def grid_selector_run (pcf : Dataset α) (var : String) (ext : Extent)
    (pac : Bool) : Except SelError (Grid2D α) × Dataset α :=
  (grid_selector pcf var ext pac, pcf)

/-- C7: `select` is pure — two calls on equal inputs return equal
results, and the parent grid after a call equals the parent grid before
it (read-only access, no modified state). -/
theorem C7_select_pure (pcf pcf' : Dataset α) (var : String) (ext : Extent)
    (pac : Bool) (h : pcf = pcf') :
    (grid_selector_run pcf var ext pac).1 =
      (grid_selector_run pcf' var ext pac).1 ∧
    (grid_selector_run pcf var ext pac).2 = pcf ∧
    (grid_selector_run pcf' var ext pac).2 = pcf' := by
  subst h
  exact ⟨rfl, rfl, rfl⟩

/-- C7 witness: two runs on the 3×3 fixture agree and leave it
unchanged. -/
theorem C7_witness :
    (grid_selector_run pcf3 "glamt" ⟨1, 2, 1, 2⟩ true).1 =
      (grid_selector_run pcf3 "glamt" ⟨1, 2, 1, 2⟩ true).1 ∧
    (grid_selector_run pcf3 "glamt" ⟨1, 2, 1, 2⟩ true).2 = pcf3 ∧
    (grid_selector_run pcf3 "glamt" ⟨1, 2, 1, 2⟩ true).2 = pcf3 :=
  C7_select_pure pcf3 pcf3 "glamt" ⟨1, 2, 1, 2⟩ true rfl

/-- C8: for every parent column count, the orchestration's Atlantic
extent reflects the fixed Pacific column bounds about the grid midpoint:
`x_middle` is the floored half of the column count, the first Atlantic
column index is `PACIFIC_X_INDICES.2 + (x_middle - PACIFIC_X_INDICES.2) * 2 + 1`
(equivalently `2 * x_middle - PACIFIC_X_INDICES.2 + 1`), the last is
`x_size - PACIFIC_X_INDICES.1 + 1`, and the Atlantic row bounds are the
fixed configured constants. -/
theorem C8_atlantic_extent_arithmetic (x_size : Nat) :
    x_middle x_size = x_size / 2 ∧
    atl_first_xind x_size =
      PACIFIC_X_INDICES.2 + ((x_middle x_size : Int) - PACIFIC_X_INDICES.2) * 2 + 1 ∧
    atl_first_xind x_size = 2 * (x_middle x_size : Int) - PACIFIC_X_INDICES.2 + 1 ∧
    atl_last_xind x_size = (x_size : Int) - PACIFIC_X_INDICES.1 + 1 ∧
    atl_extent x_size =
      ⟨ATLANTIC_Y_INDICES.1, ATLANTIC_Y_INDICES.2, atl_first_xind x_size,
        atl_last_xind x_size⟩ := by
  refine ⟨rfl, rfl, ?_, rfl, rfl⟩
  unfold atl_first_xind
  ring

theorem concat_y_lookup (d1 d2 : Dataset α) (v : String) (g : Grid2D α)
    (h : d1.lookup v = some g) :
    (concat_y d1 d2).lookup v = some (g ++ (d2.lookup v).getD []) := by
  induction d1 with
  | nil => simp [List.lookup] at h
  | cons p rest ih =>
    obtain ⟨k, b⟩ := p
    by_cases hkv : v = k
    · subst hkv
      simp only [List.lookup, beq_self_eq_true] at h
      injection h with hbg
      unfold concat_y
      simp only [List.map_cons, List.lookup, beq_self_eq_true]
      rw [hbg]
    · have hbeq : (v == k) = false := beq_eq_false_iff_ne.mpr hkv
      simp only [List.lookup, hbeq] at h
      unfold concat_y
      simp only [List.map_cons, List.lookup, hbeq]
      exact ih h

/-- C10 (implicit): `main` concatenates the two regional datasets with
the Atlantic dataset first and the Pacific dataset second along the row
axis: the combined dataset is `concat_y atl pac`, and for every field
present in both, the Atlantic rows precede the Pacific rows. -/
theorem C10_atlantic_rows_first (pcf : Dataset α) (x_size : Nat)
    (atl pac : Dataset α)
    (h1 : create_dataset pcf (atl_extent x_size) false = .ok atl)
    (h2 : create_dataset pcf pac_extent true = .ok pac) :
    main_dataset pcf x_size = .ok (concat_y atl pac) ∧
    ∀ v g gp, atl.lookup v = some g → pac.lookup v = some gp →
      (concat_y atl pac).lookup v = some (g ++ gp) := by
  constructor
  · unfold main_dataset
    rw [h1, h2]
    rfl
  · intro v g gp hg hgp
    rw [concat_y_lookup atl pac v g hg, hgp]
    rfl

/-- C10 witness: on the 3×3 fixture (whose small size makes both regional
windows empty but keeps all 18 fields) `main` returns exactly the
Atlantic-then-Pacific concatenation. -/
theorem C10_witness :
    main_dataset pcf3 10 =
      .ok (concat_y (ALL_VARS.map fun v => (v, ([] : Grid2D Nat)))
        (ALL_VARS.map fun v => (v, ([] : Grid2D Nat)))) :=
  (C10_atlantic_rows_first pcf3 10
    (ALL_VARS.map fun v => (v, ([] : Grid2D Nat)))
    (ALL_VARS.map fun v => (v, ([] : Grid2D Nat)))
    (by rfl) (by rfl)).1

end GridCut
